import Mathlib

/-!
Verification development for the ConversaFlui audio service (`src/main.py`).

The service exposes three HTTP endpoints: a health probe, a URL-to-MP3
conversion endpoint (`convert_audio_to_mp3`), and an upload-to-Base64
endpoint (`encode_audio_to_base64`), together with two helpers
(`download_file`, `convert_to_mp3`).

The embedding below is shallow: each Python function becomes a Lean
function.  External effects (the HTTP download, the HEAD metadata probe,
`os.rename`, the ffmpeg subprocess) are driven by explicit outcome oracles,
and Python's `try`/`except` control flow is modelled with an `Except`-based
combinator (`pyTry`) whose handlers mirror the source's `except` clauses.
Handlers return, besides their HTTP result, the list of external effects
they performed, so that claims about ordering and about which steps run can
be stated.
-/

namespace ConversaFlui

/-- A Python exception value, as far as the code under study distinguishes
exceptions: `requests.exceptions.RequestException`,
`subprocess.CalledProcessError`, `FileNotFoundError`, and any other
`Exception`. -/
inductive PyExn where
  | requestException (msg : String)
  | calledProcessError (returncode : Int) (stdout stderr : String)
  | fileNotFoundError
  | otherException (msg : String)
deriving DecidableEq

/-- Python `try` / `except` semantics: run the body; on an exception, the
first `except` clause whose class matches handles it (here a handler is a
partial map from exceptions to return values); an unmatched exception
propagates. -/
def pyTry {α : Type} (body : Except PyExn α) (handlers : List (PyExn → Option α)) :
    Except PyExn α :=
  match body with
  | .ok a => .ok a
  | .error e =>
    match handlers.findSome? (fun h => h e) with
    | some a => .ok a
    | none => .error e

/-- Models `except requests.exceptions.RequestException as e: ... return False`
(main.py line 34). -/
def exceptRequestException : PyExn → Option Bool
  | .requestException _ => some false
  | _ => none

/-- Models `except subprocess.CalledProcessError as e: ... return False`
(main.py line 62). -/
def exceptCalledProcessError : PyExn → Option Bool
  | .calledProcessError _ _ _ => some false
  | _ => none

/-- Models `except FileNotFoundError: ... return False` (main.py line 69). -/
def exceptFileNotFoundError : PyExn → Option Bool
  | .fileNotFoundError => some false
  | _ => none

/-- Models `except Exception as e: ... return False` (main.py lines 37 and 72):
every modelled exception derives from `Exception`, so this catches all. -/
def exceptAnyException : PyExn → Option Bool
  | _ => some false

/-- Oracle for the body of `download_file` (main.py lines 26-33): the
`requests.get` / `raise_for_status` / file-write sequence either completes,
raises a `RequestException`, or raises some other exception. -/
inductive DownloadOutcome where
  | success
  | raiseRequestException (msg : String)
  | raiseOther (msg : String)
deriving DecidableEq

/-- The `try` body of `download_file` (main.py lines 26-33). -/
def download_body (o : DownloadOutcome) : Except PyExn Bool :=
  match o with
  | .success => .ok true
  | .raiseRequestException m => .error (.requestException m)
  | .raiseOther m => .error (.otherException m)

/-- Embeds `download_file` (main.py lines 23-39): downloads `url` to `destination`;
returns `True` on success and `False` on any failure, via the two `except`
clauses. -/
def download_file (url destination : String) (o : DownloadOutcome) : Except PyExn Bool :=
  pyTry (download_body o) [exceptRequestException, exceptAnyException]

/-- The boolean the caller of `download_file` observes.  The `.error`
fallback is unreachable (theorem `helpers_total_return_bool` proves `download_file`
never returns `.error`). -/
def download_file_ok (url destination : String) (o : DownloadOutcome) : Bool :=
  match download_file url destination o with
  | .ok b => b
  | .error _ => false

/-- The fixed ffmpeg argument list built in `convert_to_mp3`
(main.py lines 44-54). -/
def ffmpeg_command (input_path output_path : String) : List String :=
  ["ffmpeg",
   "-i", input_path,
   "-vn",
   "-acodec", "libmp3lame",
   "-ab", "192k",
   "-ar", "44100",
   "-ac", "2",
   "-y",
   output_path]

/-- Oracle for `subprocess.run` in `convert_to_mp3`: the process either ran
to completion with a return code and captured output, or the binary was not
found (`FileNotFoundError`), or some other exception was raised. -/
inductive ProcOutcome where
  | completed (returncode : Int) (stdout stderr : String)
  | notFound
  | raiseOther (msg : String)
deriving DecidableEq

/-- Models `subprocess.run(command, check=True, capture_output=True, text=True)`
(main.py line 57): with `check=True` a non-zero exit status raises
`CalledProcessError`; a missing binary raises `FileNotFoundError`. -/
def subprocess_run_check (command : List String) (o : ProcOutcome) :
    Except PyExn (Int × String × String) :=
  match o with
  | .completed rc out err => if rc = 0 then .ok (rc, out, err) else .error (.calledProcessError rc out err)
  | .notFound => .error .fileNotFoundError
  | .raiseOther m => .error (.otherException m)

/-- Embeds `convert_to_mp3` (main.py lines 41-74): builds the ffmpeg command, runs
it, returns `True` on success; the three `except` clauses all return
`False`. -/
def convert_to_mp3 (input_path output_path : String) (o : ProcOutcome) : Except PyExn Bool :=
  let command := ffmpeg_command input_path output_path
  pyTry ((subprocess_run_check command o).map (fun _ => true))
    [exceptCalledProcessError, exceptFileNotFoundError, exceptAnyException]

/-- The boolean the caller of `convert_to_mp3` observes.  The `.error`
fallback is unreachable (theorem `helpers_total_return_bool`). -/
def convert_to_mp3_ok (input_path output_path : String) (o : ProcOutcome) : Bool :=
  match convert_to_mp3 input_path output_path o with
  | .ok b => b
  | .error _ => false

/-! ## Base64 (model of Python's `base64.b64encode`) -/

/-- The character of the standard Base64 alphabet at index `n < 64`. -/
def b64chr (n : Nat) : Char :=
  if n < 26 then Char.ofNat (65 + n)
  else if n < 52 then Char.ofNat (97 + (n - 26))
  else if n < 62 then Char.ofNat (48 + (n - 52))
  else if n = 62 then '+'
  else '/'

/-- The index of a character in the standard Base64 alphabet, `none` for a
character outside it.  Used by the reference decoder. -/
def b64val (c : Char) : Option Nat :=
  let n := c.toNat
  if 65 ≤ n ∧ n ≤ 90 then some (n - 65)
  else if 97 ≤ n ∧ n ≤ 122 then some (n - 97 + 26)
  else if 48 ≤ n ∧ n ≤ 57 then some (n - 48 + 52)
  else if n = 43 then some 62
  else if n = 47 then some 63
  else none

/-- Standard Base64 encoding of a byte list (each element < 256), as
performed by `base64.b64encode` (main.py line 169): three input bytes map
to four alphabet characters, with `=` padding for a final group of one or
two bytes. -/
def b64encodeBytes : List Nat → List Char
  | [] => []
  | [a] => [b64chr (a / 4), b64chr (a % 4 * 16), '=', '=']
  | [a, b] => [b64chr (a / 4), b64chr (a % 4 * 16 + b / 16), b64chr (b % 16 * 4), '=']
  | a :: b :: c :: rest =>
      b64chr (a / 4) :: b64chr (a % 4 * 16 + b / 16) :: b64chr (b % 16 * 4 + c / 64) ::
        b64chr (c % 64) :: b64encodeBytes rest

/-- Reference Base64 decoder (standard alphabet, `=` padding allowed only
in the final quartet).  This is the "Base64-decoding" of the specification,
against which the encoder is checked. -/
def b64decodeBytes : List Char → Option (List Nat)
  | [] => some []
  | c1 :: c2 :: c3 :: c4 :: rest =>
    match b64val c1, b64val c2 with
    | some v1, some v2 =>
      if c3 = '=' then
        if c4 = '=' ∧ rest = [] then some [v1 * 4 + v2 / 16] else none
      else
        match b64val c3 with
        | some v3 =>
          if c4 = '=' then
            if rest = [] then some [v1 * 4 + v2 / 16, v2 % 16 * 16 + v3 / 4] else none
          else
            match b64val c4 with
            | some v4 =>
              (b64decodeBytes rest).map
                (fun t => (v1 * 4 + v2 / 16) :: (v2 % 16 * 16 + v3 / 4) :: (v3 % 4 * 64 + v4) :: t)
            | none => none
        | none => none
    | _, _ => none
  | _ => none

/-- Models `base64.b64encode(contents).decode('utf-8')` (main.py line 169). -/
def b64encode (contents : List Nat) : String :=
  String.mk (b64encodeBytes contents)

/-! ## Path and URL helpers (models of `os.path` and `urllib.parse`) -/

/-- Models `os.path.basename`: everything after the last `/` (empty when the path
ends in `/`). -/
def ospath_basename (p : String) : String :=
  String.mk (p.toList.foldl (fun acc c => if c = '/' then [] else acc ++ [c]) [])

/-- Index of the last occurrence of `c` in `l` (CPython `str.rfind`,
`none` instead of `-1`). -/
def lastIdxOf (c : Char) (l : List Char) : Option Nat :=
  (l.foldl (fun (acc : Nat × Option Nat) ch =>
    (acc.1 + 1, if ch = c then some acc.1 else acc.2)) (0, none)).2

/-- Models `os.path.splitext`: splits at the last dot, provided that dot lies
after the last separator and the final component has a non-dot character
before it (so a leading-dot filename has no extension). -/
def ospath_splitext (p : String) : String × String :=
  let l := p.toList
  match lastIdxOf '.' l with
  | none => (p, "")
  | some d =>
    let start := match lastIdxOf '/' l with
      | none => 0
      | some s => s + 1
    if start ≤ d ∧ ((l.drop start).take (d - start)).any (fun c => c ≠ '.') then
      (String.mk (l.take d), String.mk (l.drop d))
    else (p, "")

/-- Python `str.startswith` (and the check of `String.startsWith` used in
the path helpers), computed on the character lists. -/
def str_startswith (s p : String) : Bool :=
  s.toList.take p.toList.length == p.toList

/-- Python `str.endswith`, computed on the character lists. -/
def str_endswith (s p : String) : Bool :=
  s.toList.reverse.take p.toList.length == p.toList.reverse

/-- Models `os.path.join a b` for the uses in main.py: `b` is always a bare file
name, `a` a directory without trailing slash. -/
def ospath_join (a b : String) : String :=
  if str_startswith b "/" then b
  else if a = "" ∨ str_endswith a "/" then a ++ b
  else a ++ "/" ++ b

/-- The characters allowed after the first one in a URL scheme
(`urllib.parse.scheme_chars`). -/
def scheme_char (c : Char) : Bool :=
  c.isAlphanum || c = '+' || c = '-' || c = '.'

/-- The `path` component of `urllib.parse.urlparse` (used via
`requests.utils.urlparse` at main.py line 103): drop the fragment, the
scheme, the network location and the query, then split params off the last
path segment. -/
def urlparse_path (url : String) : String :=
  let l := url.toList
  let l := l.takeWhile (fun c => c ≠ '#')
  let l := match l.findIdx? (fun c => c = ':') with
    | none => l
    | some i =>
      if 0 < i ∧ (l.headD ' ').isAlpha ∧ ((l.take i).drop 1).all scheme_char then
        l.drop (i + 1)
      else l
  let l := if l.take 2 = ['/', '/'] then
      (l.drop 2).dropWhile (fun c => c ≠ '/' ∧ c ≠ '?' ∧ c ≠ '#')
    else l
  let l := l.takeWhile (fun c => c ≠ '?')
  let l := match lastIdxOf '/' l with
    | none => l.takeWhile (fun c => c ≠ ';')
    | some s => l.take s ++ (l.drop s).takeWhile (fun c => c ≠ ';')
  String.mk l

/-! ## The conversion endpoint -/

/-- An `HTTPException` as raised by the handlers: a status code and a
detail message. -/
structure HTTPException where
  status : Nat
  detail : String
deriving DecidableEq

/-- An external effect performed by the conversion handler, in order:
the body download, the HEAD metadata probe, a successful `os.rename`, the
ffmpeg invocation (with its full argument list), and the `shutil.copy2`
out of the scoped directory. -/
inductive Effect where
  | download (url dest : String)
  | headFetch (url : String)
  | rename (src dst : String)
  | transcode (command : List String)
  | copy (src dst : String)
deriving DecidableEq

/-- Oracle for `requests.head(audio_url, timeout=10).headers.get('content-type')`
(main.py line 117): the request either raises, or yields an optional
content-type header value. -/
inductive HeadOutcome where
  | raises (msg : String)
  | ok (contentType : Option String)
deriving DecidableEq

/-- The external world one conversion request observes: the download
outcome, the HEAD probe outcome, `mimetypes.guess_extension`, whether
`os.rename` raises, the ffmpeg process outcome, and the bytes of the
produced MP3 file. -/
structure ConvWorld where
  download : DownloadOutcome
  head : HeadOutcome
  guessExt : String → Option String
  renameRaises : Bool
  proc : ProcOutcome
  transcodedBytes : List Nat

/-- The data of a FastAPI `FileResponse` (main.py line 143). -/
structure FileResponseData where
  path : String
  media_type : String
  filename : String
deriving DecidableEq

/-- Result of one run of the conversion handler: the HTTP outcome, the
external effects performed in order, whether a scoped temporary directory
was created and removed again, and the durable temp area afterwards (a map
from file path to content). -/
structure ConvResult where
  result : Except HTTPException FileResponseData
  effects : List Effect
  tempDirRemoved : Bool
  durable : List (String × List Nat)

/-- Overwrite-or-insert into the durable temp area: `shutil.copy2` onto an
existing path replaces the file. -/
def assocUpdate (l : List (String × List Nat)) (k : String) (v : List Nat) :
    List (String × List Nat) :=
  match l with
  | [] => [(k, v)]
  | (k₁, v₁) :: t => if k₁ = k then (k, v) :: t else (k₁, v₁) :: assocUpdate t k v

/-- Models `tempfile.gettempdir()` (main.py line 139): the shared durable
temp area. -/
def gettempdir : String := "/tmp"

/-- Models the fresh per-request directory produced by
`tempfile.TemporaryDirectory()` (main.py line 102). -/
def request_temp_dir : String := "/tmp/request_scope"

/-- Lines 103-107 of main.py: base name derived from the URL path, with
the fixed default when none is derivable. -/
def conv_base_name (audio_url : String) : String :=
  let original_filename := ospath_basename (urlparse_path audio_url)
  let base_name := (ospath_splitext original_filename).1
  if base_name = "" then "audio_download" else base_name

/-- Line 108 of main.py: the temp-scoped download destination. -/
def conv_input_path (audio_url : String) : String :=
  ospath_join request_temp_dir (conv_base_name audio_url ++ "_input")

/-- Line 109 of main.py: the temp-scoped transcode output path. -/
def conv_output_path (audio_url : String) : String :=
  ospath_join request_temp_dir (conv_base_name audio_url ++ "_output.mp3")

/-- The best-effort rename step, main.py lines 115-127: probe the URL's
content type, map it to an extension, and rename the downloaded file; the
whole step sits in a `try` whose `except Exception` swallows every
failure.  Returns the input path to use from here on and the effects
performed. -/
def renameStep (audio_url base_name input_file_path : String) (w : ConvWorld) :
    String × List Effect :=
  match w.head with
  | .raises _ => (input_file_path, [.headFetch audio_url])
  | .ok none => (input_file_path, [.headFetch audio_url])
  | .ok (some content_type) =>
    if content_type = "" then (input_file_path, [.headFetch audio_url])
    else
      match w.guessExt content_type with
      | none => (input_file_path, [.headFetch audio_url])
      | some ext =>
        let new_input_path := ospath_join request_temp_dir (base_name ++ ext)
        if w.renameRaises then (input_file_path, [.headFetch audio_url])
        else (new_input_path, [.headFetch audio_url, .rename input_file_path new_input_path])

/-- Embeds `convert_audio_to_mp3` (main.py lines 88-146): validate the payload,
create a scoped temp directory, download, best-effort rename, transcode,
copy the artifact to the durable temp area and answer with a
`FileResponse`.  The `with tempfile.TemporaryDirectory()` block removes
the scoped directory on every exit, normal or exceptional, so every branch
inside it reports `tempDirRemoved := true`. -/
def convert_audio_to_mp3 (payload : List (String × String)) (w : ConvWorld)
    (durable₀ : List (String × List Nat)) : ConvResult :=
  match payload.lookup "audio_url" with
  | none =>
    { result := .error ⟨400, "Missing 'audio_url' in request payload."⟩
      effects := []
      tempDirRemoved := false
      durable := durable₀ }
  | some audio_url =>
    if audio_url = "" then
      { result := .error ⟨400, "Missing 'audio_url' in request payload."⟩
        effects := []
        tempDirRemoved := false
        durable := durable₀ }
    else
      let base_name := conv_base_name audio_url
      let input_file_path := conv_input_path audio_url
      let output_file_path := conv_output_path audio_url
      if download_file_ok audio_url input_file_path w.download then
        let step := renameStep audio_url base_name input_file_path w
        if convert_to_mp3_ok step.1 output_file_path w.proc then
          let final_output_path := ospath_join gettempdir (ospath_basename output_file_path)
          { result := .ok ⟨final_output_path, "audio/mpeg", ospath_basename output_file_path⟩
            effects := .download audio_url input_file_path :: step.2 ++
              [.transcode (ffmpeg_command step.1 output_file_path),
               .copy output_file_path final_output_path]
            tempDirRemoved := true
            durable := assocUpdate durable₀ final_output_path w.transcodedBytes }
        else
          { result := .error ⟨500, "Failed to convert audio file to MP3 using FFmpeg."⟩
            effects := .download audio_url input_file_path :: step.2 ++
              [.transcode (ffmpeg_command step.1 output_file_path)]
            tempDirRemoved := true
            durable := durable₀ }
      else
        { result := .error ⟨500, "Failed to download audio file from URL."⟩
          effects := [.download audio_url input_file_path]
          tempDirRemoved := true
          durable := durable₀ }

/-! ## The Base64 encode endpoint -/

/-- The upload the encode endpoint receives: a file name and the declared
content type (`None` when the part carries no content type). -/
structure UploadFile where
  filename : String
  content_type : Option String
deriving DecidableEq

/-- Oracle for `await audio_file.read()` (main.py line 165): the bytes
read, or an exception. -/
inductive ReadOutcome where
  | ok (contents : List Nat)
  | raises (msg : String)
deriving DecidableEq

/-- Result of one run of the encode handler: the HTTP outcome (a JSON
object modelled as its field list, or an `HTTPException`), and whether
`audio_file.close()` ran before the handler finished. -/
structure EncodeResult where
  result : Except HTTPException (List (String × String))
  closed : Bool

/-- Models `not audio_file.content_type or not audio_file.content_type.startswith("audio/")`
(main.py line 158): `None` and the empty string are falsy. -/
def content_type_invalid (ct : Option String) : Bool :=
  match ct with
  | none => true
  | some s => s = "" || !(str_startswith s "audio/")

/-- Models Python `str(content_type)` as used in the 400 detail message. -/
def content_type_str (ct : Option String) : String :=
  match ct with
  | none => "None"
  | some s => s

/-- Embeds `encode_audio_to_base64` (main.py lines 151-181): reject non-audio
content types with a 400 (raised before the `try`/`finally`, so the stream
is not closed on that path); otherwise read and Base64-encode the body
inside a `try` whose `except Exception` maps failures to a 500 and whose
`finally` closes the stream. -/
def encode_audio_to_base64 (audio_file : UploadFile) (read : ReadOutcome) : EncodeResult :=
  if content_type_invalid audio_file.content_type then
    { result := .error ⟨400, "Invalid file type. Expected an audio file, got " ++
        content_type_str audio_file.content_type⟩
      closed := false }
  else
    match read with
    | .raises msg =>
      { result := .error ⟨500, "Failed to process or encode the audio file: " ++ msg⟩
        closed := true }
    | .ok contents =>
      { result := .ok [("base64_string", b64encode contents)]
        closed := true }

/-- The HTTP status of an `Except HTTPException` result, `none` on
success. -/
def resultStatus {α : Type} : Except HTTPException α → Option Nat
  | .error e => some e.status
  | .ok _ => none

/-- The ways the best-effort rename step can fail (specification side):
the HEAD probe raises, no content type is declared (or it is empty), no
extension is derivable from it, or `os.rename` itself raises. -/
def renameStepFails (w : ConvWorld) : Prop :=
  (∃ m, w.head = .raises m) ∨ w.head = .ok none ∨
    ∃ ct, w.head = .ok (some ct) ∧
      (ct = "" ∨ w.guessExt ct = none ∨ w.renameRaises = true)

/-- The ways the ffmpeg invocation can fail (specification side): the
process exits non-zero, the binary is not found, or an unexpected
exception is raised. -/
def transcodeFailure (p : ProcOutcome) : Prop :=
  p = .notFound ∨ (∃ m, p = .raiseOther m) ∨
    ∃ rc out err, p = .completed rc out err ∧ rc ≠ 0

/-! ## Theorems -/

theorem b64val_b64chr : ∀ n, n < 64 → b64val (b64chr n) = some n := by decide

theorem b64chr_ne_eq : ∀ n, n < 64 → b64chr n ≠ '=' := by decide

/-- Every byte list Base64-encodes to a string the reference decoder maps
back to exactly the original bytes. -/
theorem b64_roundtrip : ∀ l : List Nat, (∀ b ∈ l, b < 256) →
    b64decodeBytes (b64encodeBytes l) = some l := by
  intro l
  induction l using b64encodeBytes.induct with
  | case1 =>
    intro _
    rfl
  | case2 a =>
    intro h
    have ha : a < 256 := h a (by simp)
    rw [b64encodeBytes]
    simp only [b64decodeBytes, b64val_b64chr (a / 4) (by omega),
      b64val_b64chr (a % 4 * 16) (by omega), if_pos rfl, and_self]
    have e : a / 4 * 4 + a % 4 * 16 / 16 = a := by omega
    rw [e]
    simp
  | case3 a b =>
    intro h
    have ha : a < 256 := h a (by simp)
    have hb : b < 256 := h b (by simp)
    rw [b64encodeBytes]
    simp only [b64decodeBytes, b64val_b64chr (a / 4) (by omega),
      b64val_b64chr (a % 4 * 16 + b / 16) (by omega),
      if_neg (b64chr_ne_eq (b % 16 * 4) (by omega)),
      b64val_b64chr (b % 16 * 4) (by omega), if_pos rfl]
    have e1 : a / 4 * 4 + (a % 4 * 16 + b / 16) / 16 = a := by omega
    have e2 : (a % 4 * 16 + b / 16) % 16 * 16 + b % 16 * 4 / 4 = b := by omega
    rw [e1, e2]
    simp
  | case4 a b c rest ih =>
    intro h
    have ha : a < 256 := h a (by simp)
    have hb : b < 256 := h b (by simp)
    have hc : c < 256 := h c (by simp)
    have hrest : ∀ x ∈ rest, x < 256 := fun x hx => h x (by simp [hx])
    rw [b64encodeBytes]
    simp only [b64decodeBytes, b64val_b64chr (a / 4) (by omega),
      b64val_b64chr (a % 4 * 16 + b / 16) (by omega),
      if_neg (b64chr_ne_eq (b % 16 * 4 + c / 64) (by omega)),
      b64val_b64chr (b % 16 * 4 + c / 64) (by omega),
      if_neg (b64chr_ne_eq (c % 64) (by omega)),
      b64val_b64chr (c % 64) (by omega), ih hrest, Option.map_some]
    have e1 : a / 4 * 4 + (a % 4 * 16 + b / 16) / 16 = a := by omega
    have e2 : (a % 4 * 16 + b / 16) % 16 * 16 + (b % 16 * 4 + c / 64) / 4 = b := by omega
    have e3 : (b % 16 * 4 + c / 64) % 4 * 64 + c % 64 = c := by omega
    rw [e1, e2, e3]
    simp

/-- A declared content type is rejected by the validation check exactly
when it does not start with `audio/` (the empty string never does). -/
theorem content_type_invalid_eq (s : String) :
    content_type_invalid (some s) = !(str_startswith s "audio/") := by
  by_cases h : s = ""
  · subst h
    rfl
  · simp [content_type_invalid, h]

/-- C1: for every upload to the encode endpoint whose declared content
type begins with `audio/` and whose body is the byte sequence `contents`
(each element a byte), the handler returns a JSON object with the single
field `base64_string` whose value Base64-decodes to exactly `contents`. -/
theorem encode_returns_decodable_base64 (audio_file : UploadFile) (ct : String)
    (contents : List Nat) (hct : audio_file.content_type = some ct)
    (hau : str_startswith ct "audio/" = true) (hbytes : ∀ b ∈ contents, b < 256) :
    ∃ s, (encode_audio_to_base64 audio_file (.ok contents)).result =
        .ok [("base64_string", s)] ∧
      b64decodeBytes s.toList = some contents := by
  refine ⟨b64encode contents, ?_, ?_⟩
  · simp [encode_audio_to_base64, hct, content_type_invalid_eq, hau]
  · exact b64_roundtrip contents hbytes

theorem encode_returns_decodable_base64_witness :
    ∃ s, (encode_audio_to_base64 ⟨"song.mp3", some "audio/mpeg"⟩
        (.ok [77, 3, 255, 0])).result = .ok [("base64_string", s)] ∧
      b64decodeBytes s.toList = some [77, 3, 255, 0] :=
  encode_returns_decodable_base64 ⟨"song.mp3", some "audio/mpeg"⟩ "audio/mpeg"
    [77, 3, 255, 0] rfl rfl (by decide)

/-- C2 (counterexample): on the content-type rejection path the handler
raises before entering the `try`/`finally`, so it finishes without having
closed the upload stream — refuting the claim that the stream is closed on
all three exit paths. -/
theorem encode_close_skipped_on_validation_reject :
    (encode_audio_to_base64 ⟨"notes.txt", some "text/plain"⟩ (.ok [])).closed = false := rfl

/-- C2 (amended): the handler closes the upload stream exactly on the
paths that enter the `try`/`finally`, i.e. exactly when the declared
content type is present and starts with `audio/` (success and
processing-failure paths); on the 400 validation-reject path it does
not. -/
theorem encode_closes_iff_content_type_audio (audio_file : UploadFile) (read : ReadOutcome) :
    (encode_audio_to_base64 audio_file read).closed = true ↔
      ∃ s, audio_file.content_type = some s ∧ str_startswith s "audio/" = true := by
  rcases hct : audio_file.content_type with _ | s
  · cases read <;> simp [encode_audio_to_base64, hct, content_type_invalid]
  · cases hss : str_startswith s "audio/" <;> cases read <;>
      simp [encode_audio_to_base64, hct, content_type_invalid_eq, hss]

/-- C4: the encode endpoint answers 400 exactly when the declared content
type is missing or does not start with `audio/`; every content type
starting with `audio/` passes validation. -/
theorem encode_badrequest_iff_non_audio (audio_file : UploadFile) (read : ReadOutcome) :
    resultStatus (encode_audio_to_base64 audio_file read).result = some 400 ↔
      (audio_file.content_type = none ∨
        ∃ s, audio_file.content_type = some s ∧ str_startswith s "audio/" = false) := by
  rcases hct : audio_file.content_type with _ | s
  · cases read <;>
      simp [encode_audio_to_base64, hct, content_type_invalid, resultStatus]
  · cases hss : str_startswith s "audio/" <;> cases read <;>
      simp [encode_audio_to_base64, hct, content_type_invalid_eq, hss, resultStatus]

/-- C10: the download helper and the transcode helper are total with
respect to exceptions: on every oracle outcome each returns `.ok` of a
boolean (`true` exactly on success), never a propagated exception. -/
theorem helpers_total_return_bool :
    (∀ url destination o, download_file url destination o =
      .ok (decide (o = DownloadOutcome.success))) ∧
    (∀ input_path output_path p, convert_to_mp3 input_path output_path p =
      .ok (match p with
           | ProcOutcome.completed rc _ _ => decide (rc = 0)
           | _ => false)) := by
  constructor
  · intro url destination o
    cases o <;> rfl
  · intro input_path output_path p
    rcases p with ⟨rc, out, err⟩ | _ | m
    · by_cases hrc : rc = 0
      · subst hrc
        rfl
      · simp [convert_to_mp3, pyTry, subprocess_run_check, hrc, Except.map,
          List.findSome?, exceptCalledProcessError, exceptFileNotFoundError,
          exceptAnyException]
    · rfl
    · rfl

theorem download_file_ok_success (url destination : String) :
    download_file_ok url destination .success = true := rfl

/-- On any transcode failure the helper returns `.ok false`. -/
theorem convert_to_mp3_failure_eq {p : ProcOutcome} (hp : transcodeFailure p)
    (input_path output_path : String) :
    convert_to_mp3 input_path output_path p = .ok false := by
  rcases hp with h | ⟨m, h⟩ | ⟨rc, out, err, h, hrc⟩ <;> subst h
  · rfl
  · rfl
  · simp [convert_to_mp3, pyTry, subprocess_run_check, hrc, Except.map,
      List.findSome?, exceptCalledProcessError, exceptFileNotFoundError,
      exceptAnyException]

theorem convert_to_mp3_ok_failure_eq {p : ProcOutcome} (hp : transcodeFailure p)
    (input_path output_path : String) :
    convert_to_mp3_ok input_path output_path p = false := by
  rw [convert_to_mp3_ok, convert_to_mp3_failure_eq hp]

/-- Whenever the rename step fails, it leaves the input path unchanged and
performs only the HEAD probe. -/
theorem renameStep_of_fails {w : ConvWorld} (h : renameStepFails w)
    (audio_url base_name input_file_path : String) :
    renameStep audio_url base_name input_file_path w =
      (input_file_path, [.headFetch audio_url]) := by
  rcases h with ⟨m, hh⟩ | hh | ⟨ct, hh, hcase⟩
  · simp [renameStep, hh]
  · simp [renameStep, hh]
  · rcases hcase with hc | hc | hc
    · simp [renameStep, hh, hc]
    · simp [renameStep, hh, hc]
    · rcases hg : w.guessExt ct with _ | ext <;> simp [renameStep, hh, hc, hg]

/-- The rename step never performs a transcode effect. -/
theorem renameStep_no_transcode (audio_url base_name input_file_path : String)
    (w : ConvWorld) (c : List String) :
    Effect.transcode c ∉ (renameStep audio_url base_name input_file_path w).2 := by
  rcases hh : w.head with m | ct
  · simp [renameStep, hh]
  · rcases ct with _ | ct
    · simp [renameStep, hh]
    · by_cases hc : ct = ""
      · simp [renameStep, hh, hc]
      · rcases hg : w.guessExt ct with _ | ext
        · simp [renameStep, hh, hc, hg]
        · cases hr : w.renameRaises <;> simp [renameStep, hh, hc, hg, hr]

/-- Re-copying the same artifact over itself changes nothing. -/
theorem assocUpdate_idem (l : List (String × List Nat)) (k : String) (v : List Nat) :
    assocUpdate (assocUpdate l k v) k v = assocUpdate l k v := by
  induction l with
  | nil => simp [assocUpdate]
  | cons hd t ih =>
    rcases hd with ⟨k₁, v₁⟩
    by_cases hk : k₁ = k
    · subst hk
      simp [assocUpdate]
    · simp [assocUpdate, hk, ih]

/-- Closed form of the conversion handler on the 400 path. -/
theorem conv_eq_badrequest (payload : List (String × String)) (w : ConvWorld)
    (d₀ : List (String × List Nat))
    (h : payload.lookup "audio_url" = none ∨ payload.lookup "audio_url" = some "") :
    convert_audio_to_mp3 payload w d₀ =
      { result := .error ⟨400, "Missing 'audio_url' in request payload."⟩
        effects := []
        tempDirRemoved := false
        durable := d₀ } := by
  rcases h with h | h <;> simp [convert_audio_to_mp3, h]

/-- Closed form of the conversion handler when the download fails. -/
theorem conv_eq_download_failed (payload : List (String × String)) (w : ConvWorld)
    (d₀ : List (String × List Nat)) (url : String)
    (h₁ : payload.lookup "audio_url" = some url) (h₂ : url ≠ "")
    (hd : download_file_ok url (conv_input_path url) w.download = false) :
    convert_audio_to_mp3 payload w d₀ =
      { result := .error ⟨500, "Failed to download audio file from URL."⟩
        effects := [.download url (conv_input_path url)]
        tempDirRemoved := true
        durable := d₀ } := by
  simp [convert_audio_to_mp3, h₁, h₂, hd]

/-- Closed form of the conversion handler when the download succeeds and
the transcode fails.  The rename-step result is supplied as an equation to
keep the statement free of tuple projections. -/
theorem conv_eq_transcode_failed (payload : List (String × String)) (w : ConvWorld)
    (d₀ : List (String × List Nat)) (url ip : String) (effs : List Effect)
    (h₁ : payload.lookup "audio_url" = some url) (h₂ : url ≠ "")
    (hd : download_file_ok url (conv_input_path url) w.download = true)
    (hstep : renameStep url (conv_base_name url) (conv_input_path url) w = (ip, effs))
    (ht : convert_to_mp3_ok ip (conv_output_path url) w.proc = false) :
    convert_audio_to_mp3 payload w d₀ =
      { result := .error ⟨500, "Failed to convert audio file to MP3 using FFmpeg."⟩
        effects := .download url (conv_input_path url) :: effs ++
          [.transcode (ffmpeg_command ip (conv_output_path url))]
        tempDirRemoved := true
        durable := d₀ } := by
  simp [convert_audio_to_mp3, h₁, h₂, hd, hstep, ht]

/-- Closed form of the conversion handler on the success path. -/
theorem conv_eq_success (payload : List (String × String)) (w : ConvWorld)
    (d₀ : List (String × List Nat)) (url ip : String) (effs : List Effect)
    (h₁ : payload.lookup "audio_url" = some url) (h₂ : url ≠ "")
    (hd : download_file_ok url (conv_input_path url) w.download = true)
    (hstep : renameStep url (conv_base_name url) (conv_input_path url) w = (ip, effs))
    (ht : convert_to_mp3_ok ip (conv_output_path url) w.proc = true) :
    convert_audio_to_mp3 payload w d₀ =
      { result := .ok ⟨ospath_join gettempdir (ospath_basename (conv_output_path url)),
          "audio/mpeg", ospath_basename (conv_output_path url)⟩
        effects := .download url (conv_input_path url) :: effs ++
          [.transcode (ffmpeg_command ip (conv_output_path url)),
           .copy (conv_output_path url)
             (ospath_join gettempdir (ospath_basename (conv_output_path url)))]
        tempDirRemoved := true
        durable := assocUpdate d₀
          (ospath_join gettempdir (ospath_basename (conv_output_path url)))
          w.transcodedBytes } := by
  simp [convert_audio_to_mp3, h₁, h₂, hd, hstep, ht]

/-- C3: a conversion request whose JSON body lacks `audio_url` or has it
equal to the empty string fails with HTTP 400 before performing any
download, rename, transcode or copy. -/
theorem convert_rejects_missing_or_empty_url (payload : List (String × String))
    (w : ConvWorld) (d₀ : List (String × List Nat))
    (h : payload.lookup "audio_url" = none ∨ payload.lookup "audio_url" = some "") :
    (convert_audio_to_mp3 payload w d₀).result =
      .error ⟨400, "Missing 'audio_url' in request payload."⟩ ∧
    (convert_audio_to_mp3 payload w d₀).effects = [] ∧
    (convert_audio_to_mp3 payload w d₀).durable = d₀ := by
  rw [conv_eq_badrequest payload w d₀ h]
  exact ⟨rfl, rfl, rfl⟩

theorem convert_rejects_missing_or_empty_url_witness :
    (convert_audio_to_mp3 [("audio_url", "")]
        ⟨.success, .ok none, fun _ => none, false, .completed 0 "" "", []⟩ []).result =
      .error ⟨400, "Missing 'audio_url' in request payload."⟩ ∧
    (convert_audio_to_mp3 [("audio_url", "")]
        ⟨.success, .ok none, fun _ => none, false, .completed 0 "" "", []⟩ []).effects = [] ∧
    (convert_audio_to_mp3 [("audio_url", "")]
        ⟨.success, .ok none, fun _ => none, false, .completed 0 "" "", []⟩ []).durable = [] :=
  convert_rejects_missing_or_empty_url _ _ _ (Or.inr rfl)

set_option maxHeartbeats 2000000 in
/-- C5: once the download has succeeded, any failure of the best-effort
content-type rename step is swallowed: the handler behaves exactly as if
the probe had yielded no content type, and it proceeds to the transcode
step with the un-renamed downloaded file. -/
theorem rename_step_failure_swallowed (payload : List (String × String)) (w : ConvWorld)
    (d₀ : List (String × List Nat)) (url : String)
    (h₁ : payload.lookup "audio_url" = some url) (h₂ : url ≠ "")
    (h₃ : w.download = .success) (h₄ : renameStepFails w) :
    convert_audio_to_mp3 payload w d₀ =
      convert_audio_to_mp3 payload { w with head := .ok none } d₀ ∧
    Effect.transcode (ffmpeg_command (conv_input_path url) (conv_output_path url)) ∈
      (convert_audio_to_mp3 payload w d₀).effects := by
  have hd : download_file_ok url (conv_input_path url) w.download = true := by
    rw [h₃]
    rfl
  have hr := renameStep_of_fails h₄ url (conv_base_name url) (conv_input_path url)
  have hr' : renameStep url (conv_base_name url) (conv_input_path url)
      { w with head := .ok none } = (conv_input_path url, [.headFetch url]) :=
    renameStep_of_fails (Or.inr (Or.inl rfl)) url (conv_base_name url) (conv_input_path url)
  cases ht : convert_to_mp3_ok (conv_input_path url) (conv_output_path url) w.proc with
  | false =>
    have e₁ := conv_eq_transcode_failed payload w d₀ url (conv_input_path url)
      [.headFetch url] h₁ h₂ hd hr ht
    have e₂ := conv_eq_transcode_failed payload { w with head := .ok none } d₀ url
      (conv_input_path url) [.headFetch url] h₁ h₂ hd hr' ht
    rw [e₁, e₂]
    exact ⟨rfl, by simp⟩
  | true =>
    have e₁ := conv_eq_success payload w d₀ url (conv_input_path url)
      [.headFetch url] h₁ h₂ hd hr ht
    have e₂ := conv_eq_success payload { w with head := .ok none } d₀ url
      (conv_input_path url) [.headFetch url] h₁ h₂ hd hr' ht
    rw [e₁, e₂]
    exact ⟨rfl, by simp⟩

theorem rename_step_failure_swallowed_witness :
    convert_audio_to_mp3 [("audio_url", "http://h/a.wav")]
        ⟨.success, .raises "connection reset", fun _ => none, false, .completed 0 "" "", [7]⟩ [] =
      convert_audio_to_mp3 [("audio_url", "http://h/a.wav")]
        ⟨.success, .ok none, fun _ => none, false, .completed 0 "" "", [7]⟩ [] ∧
    Effect.transcode (ffmpeg_command (conv_input_path "http://h/a.wav")
        (conv_output_path "http://h/a.wav")) ∈
      (convert_audio_to_mp3 [("audio_url", "http://h/a.wav")]
        ⟨.success, .raises "connection reset", fun _ => none, false, .completed 0 "" "", [7]⟩
        []).effects :=
  rename_step_failure_swallowed _ _ _ "http://h/a.wav" rfl (by decide) rfl
    (Or.inl ⟨"connection reset", rfl⟩)

/-- C6: every transcode failure mode — non-zero exit, missing ffmpeg
binary, unexpected exception — makes `convert_to_mp3` report `False`
rather than propagate, and makes the conversion handler answer 500. -/
theorem transcode_failure_yields_false_and_500 (input_path output_path : String)
    (p : ProcOutcome) (hp : transcodeFailure p) :
    convert_to_mp3 input_path output_path p = .ok false ∧
    ∀ payload w d₀ url, payload.lookup "audio_url" = some url → url ≠ "" →
      w.proc = p →
      (convert_audio_to_mp3 payload w d₀).result =
          .error ⟨500, "Failed to download audio file from URL."⟩ ∨
      (convert_audio_to_mp3 payload w d₀).result =
          .error ⟨500, "Failed to convert audio file to MP3 using FFmpeg."⟩ := by
  refine ⟨convert_to_mp3_failure_eq hp input_path output_path, ?_⟩
  intro payload w d₀ url h₁ h₂ hw
  cases hd : download_file_ok url (conv_input_path url) w.download with
  | false =>
    rw [conv_eq_download_failed payload w d₀ url h₁ h₂ hd]
    exact Or.inl rfl
  | true =>
    rw [conv_eq_transcode_failed payload w d₀ url _ _ h₁ h₂ hd rfl
      (by rw [hw]; exact convert_to_mp3_ok_failure_eq hp _ _)]
    exact Or.inr rfl

theorem transcode_failure_yields_false_and_500_witness :
    convert_to_mp3 "/tmp/request_scope/a_input" "/tmp/request_scope/a_output.mp3"
      .notFound = .ok false ∧
    ((convert_audio_to_mp3 [("audio_url", "http://h/a.wav")]
        ⟨.success, .ok none, fun _ => none, false, .notFound, []⟩ []).result =
      .error ⟨500, "Failed to download audio file from URL."⟩ ∨
    (convert_audio_to_mp3 [("audio_url", "http://h/a.wav")]
        ⟨.success, .ok none, fun _ => none, false, .notFound, []⟩ []).result =
      .error ⟨500, "Failed to convert audio file to MP3 using FFmpeg."⟩) :=
  ⟨(transcode_failure_yields_false_and_500 "/tmp/request_scope/a_input"
      "/tmp/request_scope/a_output.mp3" .notFound (Or.inl rfl)).1,
   (transcode_failure_yields_false_and_500 "/tmp/request_scope/a_input"
      "/tmp/request_scope/a_output.mp3" .notFound (Or.inl rfl)).2
     _ _ [] "http://h/a.wav" rfl (by decide) rfl⟩

/-- C7: whatever the request and the world, every ffmpeg invocation the
conversion handler performs uses exactly the fixed parameter set, with
only the input and output paths varying. -/
theorem ffmpeg_invoked_with_fixed_arguments (payload : List (String × String))
    (w : ConvWorld) (d₀ : List (String × List Nat)) (cmd : List String)
    (h : Effect.transcode cmd ∈ (convert_audio_to_mp3 payload w d₀).effects) :
    ∃ i o, cmd = ["ffmpeg", "-i", i, "-vn", "-acodec", "libmp3lame", "-ab", "192k",
      "-ar", "44100", "-ac", "2", "-y", o] := by
  rcases hlook : payload.lookup "audio_url" with _ | url
  · rw [conv_eq_badrequest payload w d₀ (Or.inl hlook)] at h
    simp at h
  · by_cases hurl : url = ""
    · subst hurl
      rw [conv_eq_badrequest payload w d₀ (Or.inr hlook)] at h
      simp at h
    · cases hd : download_file_ok url (conv_input_path url) w.download with
      | false =>
        rw [conv_eq_download_failed payload w d₀ url hlook hurl hd] at h
        simp at h
      | true =>
        have hnot := renameStep_no_transcode url (conv_base_name url)
          (conv_input_path url) w cmd
        rcases hstep : renameStep url (conv_base_name url) (conv_input_path url) w
          with ⟨ip, effs⟩
        rw [hstep] at hnot
        cases ht : convert_to_mp3_ok ip (conv_output_path url) w.proc with
        | false =>
          rw [conv_eq_transcode_failed payload w d₀ url ip effs hlook hurl hd hstep ht] at h
          simp at hnot
          simp [hnot] at h
          exact ⟨_, _, h⟩
        | true =>
          rw [conv_eq_success payload w d₀ url ip effs hlook hurl hd hstep ht] at h
          simp at hnot
          simp [hnot] at h
          exact ⟨_, _, h⟩

theorem ffmpeg_invoked_with_fixed_arguments_witness :
    ∃ i o, ffmpeg_command (conv_input_path "http://h/a.wav")
        (conv_output_path "http://h/a.wav") =
      ["ffmpeg", "-i", i, "-vn", "-acodec", "libmp3lame", "-ab", "192k",
       "-ar", "44100", "-ac", "2", "-y", o] :=
  ffmpeg_invoked_with_fixed_arguments [("audio_url", "http://h/a.wav")]
    ⟨.success, .ok none, fun _ => none, false, .completed 0 "" "", []⟩ []
    (ffmpeg_command (conv_input_path "http://h/a.wav") (conv_output_path "http://h/a.wav"))
    (by decide)

/-- C8: on every exit path of a validated conversion request the scoped
temporary directory is removed; the durable temp area is unchanged on the
failure paths, and on success gains exactly the one copied output
artifact, which is the file the response points at. -/
theorem scoped_tempdir_removed_on_all_exits (payload : List (String × String))
    (w : ConvWorld) (d₀ : List (String × List Nat)) (url : String)
    (h₁ : payload.lookup "audio_url" = some url) (h₂ : url ≠ "") :
    (convert_audio_to_mp3 payload w d₀).tempDirRemoved = true ∧
    (∀ e, (convert_audio_to_mp3 payload w d₀).result = .error e →
      (convert_audio_to_mp3 payload w d₀).durable = d₀) ∧
    (∀ resp, (convert_audio_to_mp3 payload w d₀).result = .ok resp →
      (convert_audio_to_mp3 payload w d₀).durable =
        assocUpdate d₀ (ospath_join gettempdir (ospath_basename (conv_output_path url)))
          w.transcodedBytes ∧
      resp.path = ospath_join gettempdir (ospath_basename (conv_output_path url))) := by
  cases hd : download_file_ok url (conv_input_path url) w.download with
  | false =>
    rw [conv_eq_download_failed payload w d₀ url h₁ h₂ hd]
    exact ⟨rfl, fun e _ => rfl, fun resp hresp => by simp at hresp⟩
  | true =>
    cases ht : convert_to_mp3_ok
        (renameStep url (conv_base_name url) (conv_input_path url) w).1
        (conv_output_path url) w.proc with
    | false =>
      rw [conv_eq_transcode_failed payload w d₀ url _ _ h₁ h₂ hd rfl ht]
      exact ⟨rfl, fun e _ => rfl, fun resp hresp => by simp at hresp⟩
    | true =>
      rw [conv_eq_success payload w d₀ url _ _ h₁ h₂ hd rfl ht]
      refine ⟨rfl, fun e he => by simp at he, fun resp hresp => ⟨rfl, ?_⟩⟩
      have : resp = ⟨ospath_join gettempdir (ospath_basename (conv_output_path url)),
          "audio/mpeg", ospath_basename (conv_output_path url)⟩ := by
        have h' := hresp
        simp only [Except.ok.injEq] at h'
        exact h'.symm
      rw [this]

theorem scoped_tempdir_removed_on_all_exits_witness :
    (convert_audio_to_mp3 [("audio_url", "http://h/a.wav")]
        ⟨.success, .ok none, fun _ => none, false, .completed 0 "" "", [9]⟩ []).tempDirRemoved
      = true ∧
    (convert_audio_to_mp3 [("audio_url", "http://h/a.wav")]
        ⟨.success, .ok none, fun _ => none, false, .completed 0 "" "", [9]⟩ []).durable =
      [("/tmp/a_output.mp3", [9])] ∧
    (⟨"/tmp/a_output.mp3", "audio/mpeg", "a_output.mp3"⟩ : FileResponseData).path =
      "/tmp/a_output.mp3" := by
  have h := scoped_tempdir_removed_on_all_exits [("audio_url", "http://h/a.wav")]
    ⟨.success, .ok none, fun _ => none, false, .completed 0 "" "", [9]⟩ []
    "http://h/a.wav" rfl (by decide)
  have h₃ := h.2.2 ⟨"/tmp/a_output.mp3", "audio/mpeg", "a_output.mp3"⟩ rfl
  exact ⟨h.1, h₃.1, h₃.2⟩

/-- C9: running the conversion handler a second time with the same URL
against an identically-behaving world, starting from the durable temp
state the first call produced, yields the same successful response and
leaves the durable state exactly as after the first call: nothing the
first call produced alters the second. -/
theorem sequential_conversions_independent (payload : List (String × String))
    (w : ConvWorld) (d₀ : List (String × List Nat)) (resp : FileResponseData)
    (hsucc : (convert_audio_to_mp3 payload w d₀).result = .ok resp) :
    (convert_audio_to_mp3 payload w
        (convert_audio_to_mp3 payload w d₀).durable).result = .ok resp ∧
    (convert_audio_to_mp3 payload w
        (convert_audio_to_mp3 payload w d₀).durable).durable =
      (convert_audio_to_mp3 payload w d₀).durable := by
  rcases hlook : payload.lookup "audio_url" with _ | url
  · rw [conv_eq_badrequest payload w d₀ (Or.inl hlook)] at hsucc
    simp at hsucc
  · by_cases hurl : url = ""
    · subst hurl
      rw [conv_eq_badrequest payload w d₀ (Or.inr hlook)] at hsucc
      simp at hsucc
    · cases hd : download_file_ok url (conv_input_path url) w.download with
      | false =>
        rw [conv_eq_download_failed payload w d₀ url hlook hurl hd] at hsucc
        simp at hsucc
      | true =>
        cases ht : convert_to_mp3_ok
            (renameStep url (conv_base_name url) (conv_input_path url) w).1
            (conv_output_path url) w.proc with
        | false =>
          rw [conv_eq_transcode_failed payload w d₀ url _ _ hlook hurl hd rfl ht] at hsucc
          simp at hsucc
        | true =>
          rw [conv_eq_success payload w d₀ url _ _ hlook hurl hd rfl ht] at hsucc ⊢
          rw [conv_eq_success payload w _ url _ _ hlook hurl hd rfl ht]
          simp only [Except.ok.injEq] at hsucc
          exact ⟨by rw [hsucc], assocUpdate_idem _ _ _⟩

theorem sequential_conversions_independent_witness :
    (convert_audio_to_mp3 [("audio_url", "http://h/a.wav")]
        ⟨.success, .ok none, fun _ => none, false, .completed 0 "" "", [9]⟩
        (convert_audio_to_mp3 [("audio_url", "http://h/a.wav")]
          ⟨.success, .ok none, fun _ => none, false, .completed 0 "" "", [9]⟩ []).durable).result
      = .ok ⟨"/tmp/a_output.mp3", "audio/mpeg", "a_output.mp3"⟩ ∧
    (convert_audio_to_mp3 [("audio_url", "http://h/a.wav")]
        ⟨.success, .ok none, fun _ => none, false, .completed 0 "" "", [9]⟩
        (convert_audio_to_mp3 [("audio_url", "http://h/a.wav")]
          ⟨.success, .ok none, fun _ => none, false, .completed 0 "" "", [9]⟩ []).durable).durable
      = (convert_audio_to_mp3 [("audio_url", "http://h/a.wav")]
          ⟨.success, .ok none, fun _ => none, false, .completed 0 "" "", [9]⟩ []).durable :=
  sequential_conversions_independent _ _ _
    ⟨"/tmp/a_output.mp3", "audio/mpeg", "a_output.mp3"⟩ rfl

end ConversaFlui
